import Mathlib

/-!
Verification of the invest-robot backtester core (src/test.py, class
InvestmentSimulator) against its natural-language specification.

The Python class is embedded shallowly:

* Machine floats are modelled as exact rationals (ℚ); the claims under
  study are about exact accounting identities, band logic and ordering,
  none of which hinge on float rounding.
* The mutable simulator object is a `PState` record threaded explicitly.
* Python exceptions are modelled by returning `PState × Option String`:
  the state reflects every field mutation performed before the raise
  (Python object mutations persist when an exception propagates out of a
  method), and the second component is `some msg` when the method raises.
  Two real defects of the source are modelled faithfully this way:
  `rebalance_portfolio` and the deviation-trigger branch of
  `check_profit_conditions` evaluate the undefined global name
  `current_date` while building their log entry (NameError, entry never
  appended), and `check_profit_conditions` reads `self.pe_percentile`,
  an attribute no code path ever assigns (AttributeError), before its
  extreme-valuation and trend-reversal triggers.
* A missing / NaN moving average or trend signal is an `Option` `none`;
  a float NaN compares false against every threshold, which is exactly
  the `none` branch behaviour below.
* `scipy.stats.percentileofscore` with its default kind, `rank`, is
  embedded by its closed form: with `left` the number of strictly
  smaller samples and `right` the number of samples ≤ the score,
  the result is `(left + right + [left < right]) * 50 / n`.
-/

/-- Trend signal values carried by the `macd_signal` column. -/
inductive Signal
  | bullish
  | neutral
  | bearish
deriving DecidableEq

/-- One row of `operations_log`: date, action label, and the PE
percentile recorded with buy entries (absent on profit-taking rows). -/
structure Operation where
  date : String
  action : String
  pe : Option ℚ
deriving DecidableEq

/-- The mutable fields of `InvestmentSimulator`.  `hist_pe` is the `pe`
column of the `hist_pe` data frame, oldest first. -/
structure PState where
  cash : ℚ
  stock_shares : ℚ
  bond_shares : ℚ
  reserve : ℚ
  base_invest : ℚ
  consecutive_low : Nat
  operations_log : List Operation
  hist_pe : List ℚ
deriving DecidableEq

/-- `InvestmentSimulator.__init__`: cash = initial capital, no holdings,
reserve = 6 × base contribution, empty log and history. -/
def init_state (initial_capital base_invest : ℚ) : PState :=
  { cash := initial_capital
    stock_shares := 0
    bond_shares := 0
    reserve := 6 * base_invest
    base_invest := base_invest
    consecutive_low := 0
    operations_log := []
    hist_pe := [] }

/-- `update_market_data`: append the new rows to the stored history. -/
def update_market_data (s : PState) (new_pe : List ℚ) : PState :=
  { s with hist_pe := s.hist_pe ++ new_pe }

/-- The lookback slice of `calculate_pe_percentile`: all history when
fewer than 120 rows exist, otherwise the most recent 120 (`iloc[-120:]`). -/
def usable_window (hist : List ℚ) : List ℚ :=
  if hist.length < 120 then hist else hist.drop (hist.length - 120)

/-- The clip filter of `calculate_pe_percentile`:
`(usable_data >= 8) & (usable_data <= 20)`. -/
def in_clip (x : ℚ) : Bool :=
  decide (8 ≤ x) && decide (x ≤ 20)

/-- Lookback slice followed by the clip filter. -/
def filtered_window (hist : List ℚ) : List ℚ :=
  (usable_window hist).filter in_clip

/-- `scipy.stats.percentileofscore(a, score)` (default kind `rank`):
`(left + right + [left < right]) * 50 / len(a)` where `left` counts
samples `< score` and `right` counts samples `≤ score`. -/
def percentileofscore (a : List ℚ) (score : ℚ) : ℚ :=
  let left := (a.filter (fun x => decide (x < score))).length
  let right := (a.filter (fun x => decide (x ≤ score))).length
  let plus1 : Nat := if left < right then 1 else 0
  ((left + right + plus1 : Nat) : ℚ) * 50 / (a.length : ℚ)

/-- `calculate_pe_percentile`: neutral default 50 when fewer than 2
clipped samples remain, otherwise the percentile rank of the current PE
inside the clipped window. -/
def calculate_pe_percentile (hist : List ℚ) (current_pe : ℚ) : ℚ :=
  if (filtered_window hist).length < 2 then 50
  else percentileofscore (filtered_window hist) current_pe

/-- The band-based contribution amount of `execute_investment`
(`PE_BANDS = [30, 60]`): double below the low band, single inside the
band, nothing above it. -/
def band_amount (s : PState) (p : ℚ) : ℚ :=
  if p < 30 then 2 * s.base_invest
  else if p ≤ 60 then s.base_invest
  else 0

/-- The consecutive-low counter of `execute_investment` immediately
after the band step: incremented below the low band, reset otherwise. -/
def band_streak (s : PState) (p : ℚ) : Nat :=
  if p < 30 then s.consecutive_low + 1 else 0

/-- The contribution decision of `execute_investment` given the already
computed percentile: the final invest amount, paired with the state
whose streak and emergency reserve have been updated (lines 50-65 of
src/test.py).  When the streak reaches 3 half the reserve is added to
the amount, deducted from the reserve, and the streak is reset. -/
def invest_decision (s : PState) (p : ℚ) : ℚ × PState :=
  if 3 ≤ band_streak s p then
    (band_amount s p + s.reserve * (1/2),
      { s with reserve := s.reserve - s.reserve * (1/2), consecutive_low := 0 })
  else
    (band_amount s p, { s with consecutive_low := band_streak s p })

/-- The purchase step of `execute_investment` given the already computed
percentile (lines 67-75): buy only when the amount is positive and
covered by cash, crediting shares at the close price and appending a log
entry that carries the percentile; otherwise leave cash, shares and the
log untouched (the streak / reserve updates of `invest_decision` persist
either way). -/
def execute_investment_at (s : PState) (d : String) (p cp : ℚ) : PState :=
  let amount := (invest_decision s p).1
  let s1 := (invest_decision s p).2
  if 0 < amount ∧ amount ≤ s1.cash then
    { s1 with
        stock_shares := s1.stock_shares + amount / cp
        cash := s1.cash - amount
        operations_log := s1.operations_log ++ [{ date := d, action := "buy", pe := some p }] }
  else s1

/-- `execute_investment`: compute the percentile from the stored history,
run the decision and purchase steps, and return the percentile (the
Python method's return value). -/
def execute_investment (s : PState) (d : String) (pe cp : ℚ) : PState × ℚ :=
  let p := calculate_pe_percentile s.hist_pe pe
  (execute_investment_at s d p cp, p)

/-- Mark-to-market portfolio value at the given stock and bond prices. -/
def total_value (s : PState) (sp bp : ℚ) : ℚ :=
  s.cash + s.stock_shares * sp + s.bond_shares * bp

/-- The target equity weight of `rebalance_portfolio`:
`stock_ratio = 1 - max(0.3, pe_percentile/100)`. -/
def stock_weight (p : ℚ) : ℚ :=
  1 - max (3/10) (p / 100)

/-- `rebalance_portfolio`: move both holdings to their target values at
current prices and charge the net cash value of the two trades to cash
(lines 82-96).  The log append on line 98-102 then evaluates the
undefined global `current_date` and raises NameError, so no entry is
appended; the holdings mutations above it persist. -/
def rebalance_portfolio (s : PState) (p sp bp : ℚ) : PState × Option String :=
  let total := total_value s sp bp
  let target_stock := total * stock_weight p
  let target_bond := total * (1 - stock_weight p)
  let delta_stock := (target_stock - s.stock_shares * sp) / sp
  let delta_bond := (target_bond - s.bond_shares * bp) / bp
  ({ s with
      stock_shares := s.stock_shares + delta_stock
      bond_shares := s.bond_shares + delta_bond
      cash := s.cash - (delta_stock * sp + delta_bond * bp) },
    some "NameError: current_date is not defined")

/-- `check_profit_conditions`.  A missing (NaN) moving average makes the
deviation comparison false, skipping the first trigger.  When the first
trigger sells, its log append evaluates the undefined global
`current_date` (NameError) after the cash/share mutations.  On every
path that survives the first trigger, line 120 reads
`self.pe_percentile`, an attribute never assigned anywhere in the class,
and raises AttributeError, so the extreme-valuation and trend-reversal
triggers are unreachable. -/
def check_profit_conditions (s : PState) (current_price : ℚ)
    (ma250 : Option ℚ) (macd_signal : Option Signal) : PState × Option String :=
  match ma250 with
  | none => (s, some "AttributeError: pe_percentile")
  | some m =>
    if m = 0 then (s, some "ZeroDivisionError: float division by zero")
    else
      let dev := (current_price - m) / m
      if 1/5 < dev then
        let sell_percent := min 1 (((⌊(dev - 1/5) / (1/20)⌋ : ℤ) : ℚ) * (1/5))
        if 0 < sell_percent then
          ({ s with
              cash := s.cash + s.stock_shares * sell_percent * current_price
              stock_shares := s.stock_shares - s.stock_shares * sell_percent },
            some "NameError: current_date is not defined")
        else (s, some "AttributeError: pe_percentile")
      else (s, some "AttributeError: pe_percentile")

/-! ### Helper lemmas -/

/-- `invest_decision` only touches the reserve and the streak counter:
all other fields of the returned state are those of the input state. -/
lemma invest_decision_frame (s : PState) (p : ℚ) :
    ((invest_decision s p).2).cash = s.cash ∧
    ((invest_decision s p).2).stock_shares = s.stock_shares ∧
    ((invest_decision s p).2).bond_shares = s.bond_shares ∧
    ((invest_decision s p).2).base_invest = s.base_invest ∧
    ((invest_decision s p).2).operations_log = s.operations_log ∧
    ((invest_decision s p).2).hist_pe = s.hist_pe := by
  unfold invest_decision
  split <;> exact ⟨rfl, rfl, rfl, rfl, rfl, rfl⟩

/-! ### Claims -/

/-- Claim C1: `rebalance_portfolio` preserves mark-to-market portfolio
value (cash + stock value + bond value at the given positive prices),
and `check_profit_conditions` likewise only converts shares to cash at
the current price, so neither operation changes total portfolio value;
value changes only through external inflow. -/
theorem rebalance_and_profit_taking_preserve_value
    (s : PState) (p sp bp price bp2 : ℚ) (ma : Option ℚ) (macd : Option Signal)
    (hsp : 0 < sp) (hbp : 0 < bp) :
    total_value (rebalance_portfolio s p sp bp).1 sp bp = total_value s sp bp ∧
    total_value (check_profit_conditions s price ma macd).1 price bp2
      = total_value s price bp2 := by
  constructor
  · simp [rebalance_portfolio, total_value]
    ring
  · cases ma with
    | none => rfl
    | some m =>
      simp only [check_profit_conditions]
      split_ifs <;> simp [total_value] <;> ring

/-- Claim C9: with positive prices, `rebalance_portfolio` always leaves
the cash balance at exactly 0 (the two target values sum to total assets
including cash), and from a zero-cash state a scheduled contribution can
never buy: shares are unchanged and cash stays 0. -/
theorem rebalance_deploys_all_cash
    (s : PState) (p sp bp : ℚ) (hsp : 0 < sp) (hbp : 0 < bp) :
    (rebalance_portfolio s p sp bp).1.cash = 0 ∧
    (∀ s2 : PState, ∀ d : String, ∀ pe cp : ℚ, s2.cash = 0 →
      (execute_investment_at s2 d pe cp).stock_shares = s2.stock_shares ∧
      (execute_investment_at s2 d pe cp).cash = 0) := by
  constructor
  · simp only [rebalance_portfolio, total_value]
    field_simp
    ring
  · intro s2 d pe cp h0
    have hframe := invest_decision_frame s2 pe
    simp only [execute_investment_at]
    have hcond : ¬ (0 < (invest_decision s2 pe).1 ∧
        (invest_decision s2 pe).1 ≤ ((invest_decision s2 pe).2).cash) := by
      rintro ⟨hpos, hle⟩
      rw [hframe.1, h0] at hle
      linarith
    rw [if_neg hcond]
    exact ⟨hframe.2.1, by rw [hframe.1, h0]⟩

/-- Claim C4 counterexample: at percentile 95 (inside [0,100]) the
target bond weight `1 - stock_weight 95 = max(0.3, 0.95) = 0.95`
exceeds 70 percent of total assets, refuting the claim that the bond
weight never exceeds 70 percent.  The `max(0.3, p/100)` term floors the
bond weight at 30 percent; it does not cap it. -/
theorem rebalance_bond_weight_exceeds_70pct_at_95 :
    (0:ℚ) ≤ 95 ∧ (95:ℚ) ≤ 100 ∧ ¬ (1 - stock_weight 95 ≤ 7/10) := by
  refine ⟨by norm_num, by norm_num, ?_⟩
  simp only [stock_weight]
  rw [max_eq_right (by norm_num : (3/10 : ℚ) ≤ 95/100)]
  norm_num

/-- Claim C4 (amended): for percentiles in [0,100] fed to
`rebalance_portfolio`, the equity holding is moved to the target value
`total assets × (1 - max(0.3, p/100))`, the equity weight is
non-increasing in the percentile, and the bond weight is always at
least 30 percent of assets — equivalently the equity weight never
exceeds 70 percent (the claim's bound of 70 percent applies to the
equity side, not the bond side). -/
theorem rebalance_equity_weight_props
    (s : PState) (p p1 p2 sp bp : ℚ)
    (hp0 : 0 ≤ p) (hp100 : p ≤ 100) (hp10 : 0 ≤ p1) (h12 : p1 ≤ p2)
    (hp2 : p2 ≤ 100) (hsp : 0 < sp) (hbp : 0 < bp) :
    (rebalance_portfolio s p sp bp).1.stock_shares * sp
      = total_value s sp bp * (1 - max (3/10) (p / 100)) ∧
    stock_weight p2 ≤ stock_weight p1 ∧
    3/10 ≤ 1 - stock_weight p ∧
    stock_weight p ≤ 7/10 := by
  refine ⟨?_, ?_, ?_, ?_⟩
  · simp only [rebalance_portfolio, stock_weight]
    field_simp
  · simp only [stock_weight]
    have hmax : max (3/10 : ℚ) (p1 / 100) ≤ max (3/10) (p2 / 100) :=
      max_le_max le_rfl (by linarith)
    linarith
  · simp only [stock_weight]
    have hmax : (3/10 : ℚ) ≤ max (3/10) (p / 100) := le_max_left _ _
    linarith
  · simp only [stock_weight]
    have hmax : (3/10 : ℚ) ≤ max (3/10) (p / 100) := le_max_left _ _
    linarith

/-- Claim C4 witness: concrete instantiation of the amended theorem at
percentiles 95 (bound part) and 10 ≤ 50 (monotonicity part). -/
theorem rebalance_equity_weight_props_witness :
    (0:ℚ) ≤ 95 ∧ (95:ℚ) ≤ 100 ∧ (0:ℚ) < 100 ∧
    ((rebalance_portfolio (init_state 100000 3000) 95 100 50).1.stock_shares * 100
      = total_value (init_state 100000 3000) 100 50 * (1 - max (3/10) (95 / 100)) ∧
    stock_weight 50 ≤ stock_weight 10 ∧
    3/10 ≤ 1 - stock_weight 95 ∧
    stock_weight 95 ≤ 7/10) :=
  ⟨by norm_num, by norm_num, by norm_num,
    rebalance_equity_weight_props (init_state 100000 3000) 95 10 50 100 50
      (by norm_num) (by norm_num) (by norm_num) (by norm_num) (by norm_num)
      (by norm_num) (by norm_num)⟩

/-- Claim C6: whenever fewer than 2 valuation samples survive the clip
filter, `calculate_pe_percentile` returns exactly 50, with no error and
no division. -/
theorem pe_percentile_insufficient_data_default
    (hist : List ℚ) (pe : ℚ) (h : (filtered_window hist).length < 2) :
    calculate_pe_percentile hist pe = 50 := by
  simp [calculate_pe_percentile, h]

/-- Claim C6 witness: a window with exactly one in-range sample (10 lies
in [8,20]) returns 50. -/
theorem pe_percentile_insufficient_data_default_witness :
    (filtered_window [10]).length < 2 ∧ calculate_pe_percentile [10] 12 = 50 :=
  ⟨by decide, pe_percentile_insufficient_data_default [10] 12 (by decide)⟩

/-- The band amount always lies in the three-element menu
{0, base_invest, 2·base_invest}. -/
lemma band_amount_mem (s : PState) (p : ℚ) :
    band_amount s p = 0 ∨ band_amount s p = s.base_invest ∨
      band_amount s p = 2 * s.base_invest := by
  unfold band_amount
  split_ifs
  · right; right; rfl
  · right; left; rfl
  · left; rfl

/-- With nonnegative base unit and reserve, the decided amount is
nonnegative. -/
lemma invest_decision_amount_nonneg (s : PState) (p : ℚ)
    (hbase : 0 ≤ s.base_invest) (hres : 0 ≤ s.reserve) :
    0 ≤ (invest_decision s p).1 := by
  have hband : 0 ≤ band_amount s p := by
    rcases band_amount_mem s p with h | h | h <;> rw [h] <;> linarith
  unfold invest_decision
  split_ifs
  · simp only
    linarith
  · exact hband

/-- Claim C2 counterexample: at percentile 95 the decided amount is 0,
which is at most the cash on hand, yet `execute_investment` records no
ledger entry — refuting the claim that a ledger entry is recorded
whenever the resulting amount is at most the cash before the call. -/
theorem contribution_zero_amount_records_no_entry :
    ¬ (((invest_decision (init_state 1000 3000) 95).1 ≤ (init_state 1000 3000).cash) →
      ∃ entry : Operation,
        (execute_investment_at (init_state 1000 3000) "2024-01-20" 95 100).operations_log
          = (init_state 1000 3000).operations_log ++ [entry]) := by
  intro h
  rcases h (by decide) with ⟨entry, hentry⟩
  have hlog : (execute_investment_at (init_state 1000 3000) "2024-01-20" 95 100).operations_log
      = [] := by decide
  rw [hlog] at hentry
  simp at hentry

/-- Claim C2 (amended): given a nonnegative base unit and reserve, the
decided amount is a band amount in {0, base_unit, 2·base_unit} plus an
emergency top-up bounded by half the reserve before the call; whenever
the amount is at most the cash before the call, cash decreases by
exactly the amount and stock shares increase by amount / close_price; a
ledger entry carrying the period's percentile is recorded exactly on
those executions whose amount is additionally positive; and when the
amount exceeds cash, cash is unchanged. -/
theorem contribution_decision_execution_props
    (s : PState) (d : String) (p cp : ℚ)
    (hbase : 0 ≤ s.base_invest) (hres : 0 ≤ s.reserve) :
    (∃ e : ℚ, 0 ≤ e ∧ e ≤ s.reserve * (1/2) ∧
      ((invest_decision s p).1 - e = 0 ∨
       (invest_decision s p).1 - e = s.base_invest ∨
       (invest_decision s p).1 - e = 2 * s.base_invest)) ∧
    ((invest_decision s p).1 ≤ s.cash →
      (execute_investment_at s d p cp).cash = s.cash - (invest_decision s p).1 ∧
      (execute_investment_at s d p cp).stock_shares
        = s.stock_shares + (invest_decision s p).1 / cp) ∧
    ((execute_investment_at s d p cp).operations_log
      = if 0 < (invest_decision s p).1 ∧ (invest_decision s p).1 ≤ s.cash
        then s.operations_log ++ [{ date := d, action := "buy", pe := some p }]
        else s.operations_log) ∧
    (s.cash < (invest_decision s p).1 →
      (execute_investment_at s d p cp).cash = s.cash) := by
  have hframe := invest_decision_frame s p
  have hnonneg := invest_decision_amount_nonneg s p hbase hres
  refine ⟨?_, ?_, ?_, ?_⟩
  · by_cases h3 : 3 ≤ band_streak s p
    · refine ⟨s.reserve * (1/2), by linarith, le_rfl, ?_⟩
      have hamt : (invest_decision s p).1 = band_amount s p + s.reserve * (1/2) := by
        simp [invest_decision, h3]
      have hsub : band_amount s p + s.reserve * (1/2) - s.reserve * (1/2)
          = band_amount s p := by ring
      rw [hamt, hsub]
      exact band_amount_mem s p
    · refine ⟨0, le_rfl, by linarith, ?_⟩
      have hamt : (invest_decision s p).1 = band_amount s p := by
        simp [invest_decision, h3]
      rw [hamt, sub_zero]
      exact band_amount_mem s p
  · intro hle
    by_cases hpos : 0 < (invest_decision s p).1
    · have hcond : 0 < (invest_decision s p).1 ∧
          (invest_decision s p).1 ≤ ((invest_decision s p).2).cash := by
        exact ⟨hpos, by rw [hframe.1]; exact hle⟩
      constructor
      · simp only [execute_investment_at]
        rw [if_pos hcond]
        rw [hframe.1]
      · simp only [execute_investment_at]
        rw [if_pos hcond]
        rw [hframe.2.1]
    · have h0 : (invest_decision s p).1 = 0 := le_antisymm (not_lt.mp hpos) hnonneg
      have hcond : ¬ (0 < (invest_decision s p).1 ∧
          (invest_decision s p).1 ≤ ((invest_decision s p).2).cash) := by
        rintro ⟨hp', _⟩
        exact hpos hp'
      constructor
      · simp only [execute_investment_at]
        rw [if_neg hcond, hframe.1, h0, sub_zero]
      · simp only [execute_investment_at]
        rw [if_neg hcond, hframe.2.1, h0, zero_div, add_zero]
  · by_cases hc : 0 < (invest_decision s p).1 ∧ (invest_decision s p).1 ≤ s.cash
    · have hcond : 0 < (invest_decision s p).1 ∧
          (invest_decision s p).1 ≤ ((invest_decision s p).2).cash := by
        exact ⟨hc.1, by rw [hframe.1]; exact hc.2⟩
      rw [if_pos hc]
      simp only [execute_investment_at]
      rw [if_pos hcond]
      rw [hframe.2.2.2.2.1]
    · have hcond : ¬ (0 < (invest_decision s p).1 ∧
          (invest_decision s p).1 ≤ ((invest_decision s p).2).cash) := by
        rintro ⟨h1, h2⟩
        rw [hframe.1] at h2
        exact hc ⟨h1, h2⟩
      rw [if_neg hc]
      simp only [execute_investment_at]
      rw [if_neg hcond]
      exact hframe.2.2.2.2.1
  · intro hlt
    have hcond : ¬ (0 < (invest_decision s p).1 ∧
        (invest_decision s p).1 ≤ ((invest_decision s p).2).cash) := by
      rintro ⟨_, hle'⟩
      rw [hframe.1] at hle'
      linarith
    simp only [execute_investment_at]
    rw [if_neg hcond]
    exact hframe.1

/-- Claim C10: when the consecutive-low streak reaches 3 but cash cannot
cover the combined amount, the purchase is skipped — cash, stock shares
and the ledger are unchanged — yet the reserve deduction and the streak
reset persist: the emergency deployment is not atomic with its
execution. -/
theorem emergency_deployment_not_atomic
    (s : PState) (d : String) (p cp : ℚ)
    (hp : p < 30) (hstreak : s.consecutive_low = 2)
    (hcash : s.cash < 2 * s.base_invest + s.reserve * (1/2)) :
    (execute_investment_at s d p cp).cash = s.cash ∧
    (execute_investment_at s d p cp).stock_shares = s.stock_shares ∧
    (execute_investment_at s d p cp).operations_log = s.operations_log ∧
    (execute_investment_at s d p cp).reserve = s.reserve - s.reserve * (1/2) ∧
    (execute_investment_at s d p cp).consecutive_low = 0 := by
  have hbs : band_streak s p = 3 := by
    simp [band_streak, hp, hstreak]
  have h3 : 3 ≤ band_streak s p := by
    rw [hbs]
  have hamt : (invest_decision s p).1 = 2 * s.base_invest + s.reserve * (1/2) := by
    simp [invest_decision, h3, band_amount, hp]
  have hst : (invest_decision s p).2
      = { s with reserve := s.reserve - s.reserve * (1/2), consecutive_low := 0 } := by
    simp [invest_decision, h3]
  have hcond : ¬ (0 < (invest_decision s p).1 ∧
      (invest_decision s p).1 ≤ ((invest_decision s p).2).cash) := by
    rintro ⟨_, hle⟩
    rw [(invest_decision_frame s p).1, hamt] at hle
    linarith
  have hexec : execute_investment_at s d p cp
      = { s with reserve := s.reserve - s.reserve * (1/2), consecutive_low := 0 } := by
    simp only [execute_investment_at]
    rw [if_neg hcond, hst]
  rw [hexec]
  exact ⟨rfl, rfl, rfl, rfl, rfl⟩

/-- A concrete state for the skipped emergency purchase: 1000 cash is
far short of the 15000 combined amount that percentile 10 triggers at a
streak of 2. -/
def skip_state : PState :=
  { cash := 1000
    stock_shares := 5
    bond_shares := 0
    reserve := 18000
    base_invest := 3000
    consecutive_low := 2
    operations_log := []
    hist_pe := [] }

/-- Claim C10 witness: concrete instantiation on `skip_state`. -/
theorem emergency_deployment_not_atomic_witness :
    (10:ℚ) < 30 ∧ skip_state.consecutive_low = 2 ∧
    skip_state.cash < 2 * skip_state.base_invest + skip_state.reserve * (1/2) ∧
    ((execute_investment_at skip_state "2024-03-20" 10 100).cash = skip_state.cash ∧
     (execute_investment_at skip_state "2024-03-20" 10 100).stock_shares
       = skip_state.stock_shares ∧
     (execute_investment_at skip_state "2024-03-20" 10 100).operations_log
       = skip_state.operations_log ∧
     (execute_investment_at skip_state "2024-03-20" 10 100).reserve
       = skip_state.reserve - skip_state.reserve * (1/2) ∧
     (execute_investment_at skip_state "2024-03-20" 10 100).consecutive_low = 0) :=
  ⟨by norm_num, rfl, by norm_num [skip_state],
    emergency_deployment_not_atomic skip_state "2024-03-20" 10 100
      (by norm_num) rfl (by norm_num [skip_state])⟩

/-- One low-valuation period below the emergency threshold: the streak
increments, the reserve is untouched, and a double contribution is
bought. -/
lemma exec_low_step (s : PState) (d : String) (p cp : ℚ)
    (hp : p < 30) (hstreak : s.consecutive_low + 1 < 3)
    (hpos : 0 < s.base_invest) (hcash : 2 * s.base_invest ≤ s.cash) :
    execute_investment_at s d p cp =
      { s with
          cash := s.cash - 2 * s.base_invest
          stock_shares := s.stock_shares + 2 * s.base_invest / cp
          consecutive_low := s.consecutive_low + 1
          operations_log := s.operations_log
            ++ [{ date := d, action := "buy", pe := some p }] } := by
  have hbs : band_streak s p = s.consecutive_low + 1 := by
    simp [band_streak, hp]
  have h3 : ¬ 3 ≤ band_streak s p := by
    rw [hbs]; omega
  have hamt : (invest_decision s p).1 = 2 * s.base_invest := by
    unfold invest_decision
    rw [if_neg h3]
    unfold band_amount
    rw [if_pos hp]
  have hst : (invest_decision s p).2
      = { s with consecutive_low := s.consecutive_low + 1 } := by
    unfold invest_decision
    rw [if_neg h3, hbs]
  have hcond : 0 < (invest_decision s p).1 ∧
      (invest_decision s p).1 ≤ ((invest_decision s p).2).cash := by
    rw [hamt, (invest_decision_frame s p).1]
    exact ⟨by linarith, hcash⟩
  simp only [execute_investment_at]
  rw [if_pos hcond, hamt, hst]

/-- One low-valuation period at the emergency threshold: half the
reserve is deployed on top of the double contribution, the reserve is
halved and the streak resets. -/
lemma exec_low_emergency_step (s : PState) (d : String) (p cp : ℚ)
    (hp : p < 30) (hstreak : 3 ≤ s.consecutive_low + 1)
    (hpos : 0 < 2 * s.base_invest + s.reserve * (1/2))
    (hcash : 2 * s.base_invest + s.reserve * (1/2) ≤ s.cash) :
    execute_investment_at s d p cp =
      { s with
          cash := s.cash - (2 * s.base_invest + s.reserve * (1/2))
          stock_shares := s.stock_shares
            + (2 * s.base_invest + s.reserve * (1/2)) / cp
          reserve := s.reserve - s.reserve * (1/2)
          consecutive_low := 0
          operations_log := s.operations_log
            ++ [{ date := d, action := "buy", pe := some p }] } := by
  have hbs : band_streak s p = s.consecutive_low + 1 := by
    simp [band_streak, hp]
  have h3 : 3 ≤ band_streak s p := by
    rw [hbs]; omega
  have hamt : (invest_decision s p).1 = 2 * s.base_invest + s.reserve * (1/2) := by
    unfold invest_decision
    rw [if_pos h3]
    unfold band_amount
    rw [if_pos hp]
  have hst : (invest_decision s p).2
      = { s with reserve := s.reserve - s.reserve * (1/2), consecutive_low := 0 } := by
    unfold invest_decision
    rw [if_pos h3]
  have hcond : 0 < (invest_decision s p).1 ∧
      (invest_decision s p).1 ≤ ((invest_decision s p).2).cash := by
    rw [hamt, (invest_decision_frame s p).1]
    exact ⟨hpos, hcash⟩
  simp only [execute_investment_at]
  rw [if_pos hcond, hamt, hst]

/-- Claim C5: three consecutive periods at percentile 10 with base unit
3000, reserve 18000 and sufficient cash: periods 1 and 2 each invest
6000 and grow the streak to 1 then 2 with the reserve untouched; period
3 reaches streak 3, deploys 9000 (half of 18000) on top of 6000 for a
total of 15000, leaves the reserve at 9000 and resets the streak to 0. -/
theorem emergency_streak_scenario
    (s : PState) (d1 d2 d3 : String) (cp : ℚ)
    (hres : s.reserve = 18000) (hbase : s.base_invest = 3000)
    (hlow : s.consecutive_low = 0) (hcash : 27000 ≤ s.cash) :
    (execute_investment_at s d1 10 cp).cash = s.cash - 6000 ∧
    (execute_investment_at s d1 10 cp).stock_shares = s.stock_shares + 6000 / cp ∧
    (execute_investment_at s d1 10 cp).consecutive_low = 1 ∧
    (execute_investment_at s d1 10 cp).reserve = 18000 ∧
    (execute_investment_at (execute_investment_at s d1 10 cp) d2 10 cp).cash
      = (execute_investment_at s d1 10 cp).cash - 6000 ∧
    (execute_investment_at (execute_investment_at s d1 10 cp) d2 10 cp).stock_shares
      = (execute_investment_at s d1 10 cp).stock_shares + 6000 / cp ∧
    (execute_investment_at (execute_investment_at s d1 10 cp) d2 10 cp).consecutive_low = 2 ∧
    (execute_investment_at (execute_investment_at s d1 10 cp) d2 10 cp).reserve = 18000 ∧
    (execute_investment_at
        (execute_investment_at (execute_investment_at s d1 10 cp) d2 10 cp) d3 10 cp).cash
      = (execute_investment_at (execute_investment_at s d1 10 cp) d2 10 cp).cash - 15000 ∧
    (execute_investment_at
        (execute_investment_at (execute_investment_at s d1 10 cp) d2 10 cp) d3 10 cp).stock_shares
      = (execute_investment_at (execute_investment_at s d1 10 cp) d2 10 cp).stock_shares
        + 15000 / cp ∧
    (execute_investment_at
        (execute_investment_at (execute_investment_at s d1 10 cp) d2 10 cp) d3 10 cp).reserve
      = 9000 ∧
    (execute_investment_at
        (execute_investment_at (execute_investment_at s d1 10 cp) d2 10 cp) d3 10 cp).consecutive_low
      = 0 := by
  have h1 := exec_low_step s d1 10 cp (by norm_num)
    (by rw [hlow]; norm_num) (by rw [hbase]; norm_num) (by rw [hbase]; linarith)
  have hb1 : (execute_investment_at s d1 10 cp).base_invest = 3000 := by
    rw [h1]; exact hbase
  have hr1 : (execute_investment_at s d1 10 cp).reserve = 18000 := by
    rw [h1]; exact hres
  have hl1 : (execute_investment_at s d1 10 cp).consecutive_low = 1 := by
    rw [h1]; show s.consecutive_low + 1 = 1; rw [hlow]
  have hc1 : (execute_investment_at s d1 10 cp).cash = s.cash - 6000 := by
    rw [h1]; show s.cash - 2 * s.base_invest = s.cash - 6000; rw [hbase]; norm_num
  have hs1 : (execute_investment_at s d1 10 cp).stock_shares
      = s.stock_shares + 6000 / cp := by
    rw [h1]; show s.stock_shares + 2 * s.base_invest / cp = s.stock_shares + 6000 / cp
    rw [hbase]; norm_num
  have h2 := exec_low_step (execute_investment_at s d1 10 cp) d2 10 cp (by norm_num)
    (by rw [hl1]; norm_num) (by rw [hb1]; norm_num) (by rw [hb1, hc1]; linarith)
  have hb2 : (execute_investment_at (execute_investment_at s d1 10 cp) d2 10 cp).base_invest
      = 3000 := by
    rw [h2]; exact hb1
  have hr2 : (execute_investment_at (execute_investment_at s d1 10 cp) d2 10 cp).reserve
      = 18000 := by
    rw [h2]; exact hr1
  have hl2 : (execute_investment_at (execute_investment_at s d1 10 cp) d2 10 cp).consecutive_low
      = 2 := by
    rw [h2]
    show (execute_investment_at s d1 10 cp).consecutive_low + 1 = 2
    rw [hl1]
  have hc2 : (execute_investment_at (execute_investment_at s d1 10 cp) d2 10 cp).cash
      = (execute_investment_at s d1 10 cp).cash - 6000 := by
    rw [h2]
    show (execute_investment_at s d1 10 cp).cash
        - 2 * (execute_investment_at s d1 10 cp).base_invest
      = (execute_investment_at s d1 10 cp).cash - 6000
    rw [hb1]; norm_num
  have hs2 : (execute_investment_at (execute_investment_at s d1 10 cp) d2 10 cp).stock_shares
      = (execute_investment_at s d1 10 cp).stock_shares + 6000 / cp := by
    rw [h2]
    show (execute_investment_at s d1 10 cp).stock_shares
        + 2 * (execute_investment_at s d1 10 cp).base_invest / cp
      = (execute_investment_at s d1 10 cp).stock_shares + 6000 / cp
    rw [hb1]; norm_num
  have h3 := exec_low_emergency_step
    (execute_investment_at (execute_investment_at s d1 10 cp) d2 10 cp) d3 10 cp
    (by norm_num) (by rw [hl2]) (by rw [hb2, hr2]; norm_num)
    (by rw [hb2, hr2, hc2, hc1]; linarith)
  have hc3 : (execute_investment_at
        (execute_investment_at (execute_investment_at s d1 10 cp) d2 10 cp) d3 10 cp).cash
      = (execute_investment_at (execute_investment_at s d1 10 cp) d2 10 cp).cash - 15000 := by
    rw [h3]
    show (execute_investment_at (execute_investment_at s d1 10 cp) d2 10 cp).cash
        - (2 * (execute_investment_at (execute_investment_at s d1 10 cp) d2 10 cp).base_invest
          + (execute_investment_at (execute_investment_at s d1 10 cp) d2 10 cp).reserve * (1/2))
      = (execute_investment_at (execute_investment_at s d1 10 cp) d2 10 cp).cash - 15000
    rw [hb2, hr2]; norm_num
  have hs3 : (execute_investment_at
        (execute_investment_at (execute_investment_at s d1 10 cp) d2 10 cp) d3 10 cp).stock_shares
      = (execute_investment_at (execute_investment_at s d1 10 cp) d2 10 cp).stock_shares
        + 15000 / cp := by
    rw [h3]
    show (execute_investment_at (execute_investment_at s d1 10 cp) d2 10 cp).stock_shares
        + (2 * (execute_investment_at (execute_investment_at s d1 10 cp) d2 10 cp).base_invest
          + (execute_investment_at (execute_investment_at s d1 10 cp) d2 10 cp).reserve * (1/2)) / cp
      = (execute_investment_at (execute_investment_at s d1 10 cp) d2 10 cp).stock_shares
        + 15000 / cp
    rw [hb2, hr2]; norm_num
  have hr3 : (execute_investment_at
        (execute_investment_at (execute_investment_at s d1 10 cp) d2 10 cp) d3 10 cp).reserve
      = 9000 := by
    rw [h3]
    show (execute_investment_at (execute_investment_at s d1 10 cp) d2 10 cp).reserve
        - (execute_investment_at (execute_investment_at s d1 10 cp) d2 10 cp).reserve * (1/2)
      = 9000
    rw [hr2]; norm_num
  have hl3 : (execute_investment_at
        (execute_investment_at (execute_investment_at s d1 10 cp) d2 10 cp) d3 10 cp).consecutive_low
      = 0 := by
    rw [h3]
  exact ⟨hc1, hs1, hl1, hr1, hc2, hs2, hl2, hr2, hc3, hs3, hr3, hl3⟩

/-- Claim C5 witness: the scenario instantiated on the freshly
initialized simulator (capital 100000, base 3000, reserve 18000) at a
flat close price of 100. -/
theorem emergency_streak_scenario_witness :
    (init_state 100000 3000).reserve = 18000 ∧
    (init_state 100000 3000).base_invest = 3000 ∧
    (init_state 100000 3000).consecutive_low = 0 ∧
    27000 ≤ (init_state 100000 3000).cash ∧
    ((execute_investment_at (init_state 100000 3000) "p1" 10 100).cash
        = (init_state 100000 3000).cash - 6000 ∧
      (execute_investment_at (init_state 100000 3000) "p1" 10 100).stock_shares
        = (init_state 100000 3000).stock_shares + 6000 / 100 ∧
      (execute_investment_at (init_state 100000 3000) "p1" 10 100).consecutive_low = 1 ∧
      (execute_investment_at (init_state 100000 3000) "p1" 10 100).reserve = 18000 ∧
      (execute_investment_at (execute_investment_at (init_state 100000 3000) "p1" 10 100)
          "p2" 10 100).cash
        = (execute_investment_at (init_state 100000 3000) "p1" 10 100).cash - 6000 ∧
      (execute_investment_at (execute_investment_at (init_state 100000 3000) "p1" 10 100)
          "p2" 10 100).stock_shares
        = (execute_investment_at (init_state 100000 3000) "p1" 10 100).stock_shares
          + 6000 / 100 ∧
      (execute_investment_at (execute_investment_at (init_state 100000 3000) "p1" 10 100)
          "p2" 10 100).consecutive_low = 2 ∧
      (execute_investment_at (execute_investment_at (init_state 100000 3000) "p1" 10 100)
          "p2" 10 100).reserve = 18000 ∧
      (execute_investment_at
          (execute_investment_at (execute_investment_at (init_state 100000 3000) "p1" 10 100)
            "p2" 10 100) "p3" 10 100).cash
        = (execute_investment_at (execute_investment_at (init_state 100000 3000) "p1" 10 100)
            "p2" 10 100).cash - 15000 ∧
      (execute_investment_at
          (execute_investment_at (execute_investment_at (init_state 100000 3000) "p1" 10 100)
            "p2" 10 100) "p3" 10 100).stock_shares
        = (execute_investment_at (execute_investment_at (init_state 100000 3000) "p1" 10 100)
            "p2" 10 100).stock_shares + 15000 / 100 ∧
      (execute_investment_at
          (execute_investment_at (execute_investment_at (init_state 100000 3000) "p1" 10 100)
            "p2" 10 100) "p3" 10 100).reserve = 9000 ∧
      (execute_investment_at
          (execute_investment_at (execute_investment_at (init_state 100000 3000) "p1" 10 100)
            "p2" 10 100) "p3" 10 100).consecutive_low = 0) :=
  ⟨by norm_num [init_state], rfl, rfl, by norm_num [init_state],
    emergency_streak_scenario (init_state 100000 3000) "p1" "p2" "p3" 100
      (by norm_num [init_state]) rfl rfl (by norm_num [init_state])⟩

/-- A portfolio holding 10 stock shares, used to probe
`check_profit_conditions`. -/
def probe_state : PState :=
  { cash := 1000
    stock_shares := 10
    bond_shares := 0
    reserve := 18000
    base_invest := 3000
    consecutive_low := 0
    operations_log := []
    hist_pe := [] }

/-- Claim C3: the driver passes the period's percentile to
`execute_investment` and `rebalance_portfolio`, but
`check_profit_conditions` takes no percentile at all — it reads
`self.pe_percentile`, an attribute never assigned anywhere in the
class.  Concretely, with price = moving average = 30 (deviation
trigger idle) the call raises AttributeError and leaves the state
unchanged: no 50 percent liquidation happens, whatever the period's
percentile was. -/
theorem profit_check_crashes_before_extreme_trigger :
    check_profit_conditions probe_state 30 (some 30) (some Signal.bearish)
      = (probe_state, some "AttributeError: pe_percentile") ∧
    probe_state.stock_shares ≠ probe_state.stock_shares * (1/2) := by
  constructor
  · simp only [check_profit_conditions]
    rw [if_neg (by norm_num : ¬ (30:ℚ) = 0)]
    rw [if_neg (by norm_num : ¬ (1/5:ℚ) < ((30:ℚ) - 30) / 30)]
  · norm_num [probe_state]

/-- Claim C8: with a missing (NaN) moving average the deviation trigger
is indeed skipped without an error of its own, but the call then still
raises AttributeError on the never-assigned `self.pe_percentile` before
the remaining triggers run: the state is returned unchanged and the
bearish trend signal does not produce its 30 percent sale. -/
theorem null_ma_skips_deviation_then_crashes :
    check_profit_conditions probe_state 30 none (some Signal.bearish)
      = (probe_state, some "AttributeError: pe_percentile") ∧
    probe_state.stock_shares ≠ probe_state.stock_shares * (7/10) := by
  constructor
  · rfl
  · norm_num [probe_state]

/-- A filter with a weaker predicate keeps at least as many elements. -/
lemma length_filter_mono (l : List ℚ) {p q : ℚ → Bool}
    (h : ∀ x, p x = true → q x = true) :
    (l.filter p).length ≤ (l.filter q).length :=
  (List.monotone_filter_right l h).length_le

/-- The rank formula of `percentileofscore` is monotone non-decreasing
in the queried score over any fixed nonempty sample list. -/
lemma percentileofscore_mono (a : List ℚ) (ha : a ≠ []) {v1 v2 : ℚ}
    (h : v1 ≤ v2) :
    percentileofscore a v1 ≤ percentileofscore a v2 := by
  rcases eq_or_lt_of_le h with rfl | hlt
  · exact le_rfl
  have hn : (0:ℚ) < (a.length : ℚ) := by
    exact_mod_cast List.length_pos.mpr ha
  simp only [percentileofscore]
  rw [div_le_div_right hn]
  have h11 : (a.filter (fun x => decide (x < v1))).length
      ≤ (a.filter (fun x => decide (x ≤ v1))).length :=
    length_filter_mono a fun x hx =>
      decide_eq_true (le_of_lt (of_decide_eq_true hx))
  have h22 : (a.filter (fun x => decide (x < v2))).length
      ≤ (a.filter (fun x => decide (x ≤ v2))).length :=
    length_filter_mono a fun x hx =>
      decide_eq_true (le_of_lt (of_decide_eq_true hx))
  have h1l2 : (a.filter (fun x => decide (x < v1))).length
      ≤ (a.filter (fun x => decide (x < v2))).length :=
    length_filter_mono a fun x hx =>
      decide_eq_true (lt_of_lt_of_le (of_decide_eq_true hx) h)
  have hr1r2 : (a.filter (fun x => decide (x ≤ v1))).length
      ≤ (a.filter (fun x => decide (x ≤ v2))).length :=
    length_filter_mono a fun x hx =>
      decide_eq_true (le_trans (of_decide_eq_true hx) h)
  have hr1l2 : (a.filter (fun x => decide (x ≤ v1))).length
      ≤ (a.filter (fun x => decide (x < v2))).length :=
    length_filter_mono a fun x hx =>
      decide_eq_true (lt_of_le_of_lt (of_decide_eq_true hx) hlt)
  have key : (a.filter (fun x => decide (x < v1))).length
        + (a.filter (fun x => decide (x ≤ v1))).length
        + (if (a.filter (fun x => decide (x < v1))).length
            < (a.filter (fun x => decide (x ≤ v1))).length then 1 else 0)
      ≤ (a.filter (fun x => decide (x < v2))).length
        + (a.filter (fun x => decide (x ≤ v2))).length
        + (if (a.filter (fun x => decide (x < v2))).length
            < (a.filter (fun x => decide (x ≤ v2))).length then 1 else 0) := by
    split_ifs <;> omega
  have keyq : (((a.filter (fun x => decide (x < v1))).length
        + (a.filter (fun x => decide (x ≤ v1))).length
        + (if (a.filter (fun x => decide (x < v1))).length
            < (a.filter (fun x => decide (x ≤ v1))).length then 1 else 0) : ℕ) : ℚ)
      ≤ (((a.filter (fun x => decide (x < v2))).length
        + (a.filter (fun x => decide (x ≤ v2))).length
        + (if (a.filter (fun x => decide (x < v2))).length
            < (a.filter (fun x => decide (x ≤ v2))).length then 1 else 0) : ℕ) : ℚ) := by
    exact_mod_cast key
  linarith

/-- The rank formula of `percentileofscore` always lies in [0, 100]. -/
lemma percentileofscore_range (a : List ℚ) (v : ℚ) :
    0 ≤ percentileofscore a v ∧ percentileofscore a v ≤ 100 := by
  rcases eq_or_ne a [] with rfl | ha
  · constructor <;> simp [percentileofscore]
  have hn : (0:ℚ) < (a.length : ℚ) := by
    exact_mod_cast List.length_pos.mpr ha
  constructor
  · simp only [percentileofscore]
    positivity
  · simp only [percentileofscore]
    rw [div_le_iff hn]
    have hlr : (a.filter (fun x => decide (x < v))).length
        ≤ (a.filter (fun x => decide (x ≤ v))).length :=
      length_filter_mono a fun x hx =>
        decide_eq_true (le_of_lt (of_decide_eq_true hx))
    have hrn : (a.filter (fun x => decide (x ≤ v))).length ≤ a.length :=
      List.length_filter_le _ _
    have key : (a.filter (fun x => decide (x < v))).length
          + (a.filter (fun x => decide (x ≤ v))).length
          + (if (a.filter (fun x => decide (x < v))).length
              < (a.filter (fun x => decide (x ≤ v))).length then 1 else 0)
        ≤ 2 * a.length := by
      split_ifs <;> omega
    have keyq : ((((a.filter (fun x => decide (x < v))).length
          + (a.filter (fun x => decide (x ≤ v))).length
          + (if (a.filter (fun x => decide (x < v))).length
              < (a.filter (fun x => decide (x ≤ v))).length then 1 else 0)) : ℕ) : ℚ)
        ≤ ((2 * a.length : ℕ) : ℚ) := by
      exact_mod_cast key
    push_cast at keyq ⊢
    linarith

/-- Claim C7: for a fixed history window with at least 2 clipped
samples, `calculate_pe_percentile` is monotone non-decreasing in the
queried value, and the returned rank lies in [0, 100]. -/
theorem pe_percentile_monotone_and_bounded
    (hist : List ℚ) (v1 v2 : ℚ)
    (hlen : 2 ≤ (filtered_window hist).length) (h12 : v1 ≤ v2) :
    calculate_pe_percentile hist v1 ≤ calculate_pe_percentile hist v2 ∧
    0 ≤ calculate_pe_percentile hist v1 ∧
    calculate_pe_percentile hist v1 ≤ 100 := by
  have hne : filtered_window hist ≠ [] := by
    intro hnil
    rw [hnil] at hlen
    simp at hlen
  have hnotlt : ¬ (filtered_window hist).length < 2 := not_lt.mpr hlen
  refine ⟨?_, ?_⟩
  · simp only [calculate_pe_percentile]
    rw [if_neg hnotlt, if_neg hnotlt]
    exact percentileofscore_mono _ hne h12
  · simp only [calculate_pe_percentile]
    rw [if_neg hnotlt]
    exact percentileofscore_range _ _

/-- Claim C7 witness: on the window [10, 12] (both samples survive the
clip) the rank at 9 is below the rank at 11 and lies in [0, 100]. -/
theorem pe_percentile_monotone_and_bounded_witness :
    2 ≤ (filtered_window [10, 12]).length ∧ (9:ℚ) ≤ 11 ∧
    (calculate_pe_percentile [10, 12] 9 ≤ calculate_pe_percentile [10, 12] 11 ∧
     0 ≤ calculate_pe_percentile [10, 12] 9 ∧
     calculate_pe_percentile [10, 12] 9 ≤ 100) :=
  ⟨by decide, by norm_num,
    pe_percentile_monotone_and_bounded [10, 12] 9 11 (by decide) (by norm_num)⟩

/-- Claim C1 witness: value preservation instantiated on a portfolio of
10 shares at stock price 100, bond price 50, with a deviation-trigger
sale actually firing in the profit-taking call (price 30 vs average 20). -/
theorem rebalance_and_profit_taking_preserve_value_witness :
    (0:ℚ) < 100 ∧ (0:ℚ) < 50 ∧
    (total_value (rebalance_portfolio probe_state 42 100 50).1 100 50
        = total_value probe_state 100 50 ∧
      total_value (check_profit_conditions probe_state 30 (some 20)
          (some Signal.bearish)).1 30 50
        = total_value probe_state 30 50) :=
  ⟨by norm_num, by norm_num,
    rebalance_and_profit_taking_preserve_value probe_state 42 100 50 30 50
      (some 20) (some Signal.bearish) (by norm_num) (by norm_num)⟩

/-- Claim C2 witness: the amended contribution properties instantiated
at percentile 40 twice: on the freshly initialized simulator, whose
100000 cash covers the 3000 band amount, so the buy branch really fires
(the decided amount is positive and within cash, making the if select
the appended-entry log and the purchase conjuncts bite), and on
`probe_state`, whose 1000 cash cannot cover 3000, so the skip branch
really fires. -/
theorem contribution_decision_execution_props_witness :
    (0:ℚ) ≤ (init_state 100000 3000).base_invest ∧
    (0:ℚ) ≤ (init_state 100000 3000).reserve ∧
    0 < (invest_decision (init_state 100000 3000) 40).1 ∧
    (invest_decision (init_state 100000 3000) 40).1 ≤ (init_state 100000 3000).cash ∧
    (0:ℚ) ≤ probe_state.base_invest ∧
    (0:ℚ) ≤ probe_state.reserve ∧
    probe_state.cash < (invest_decision probe_state 40).1 ∧
    ((∃ e : ℚ, 0 ≤ e ∧ e ≤ (init_state 100000 3000).reserve * (1/2) ∧
        ((invest_decision (init_state 100000 3000) 40).1 - e = 0 ∨
         (invest_decision (init_state 100000 3000) 40).1 - e
           = (init_state 100000 3000).base_invest ∨
         (invest_decision (init_state 100000 3000) 40).1 - e
           = 2 * (init_state 100000 3000).base_invest)) ∧
      ((invest_decision (init_state 100000 3000) 40).1 ≤ (init_state 100000 3000).cash →
        (execute_investment_at (init_state 100000 3000) "d1" 40 100).cash
          = (init_state 100000 3000).cash - (invest_decision (init_state 100000 3000) 40).1 ∧
        (execute_investment_at (init_state 100000 3000) "d1" 40 100).stock_shares
          = (init_state 100000 3000).stock_shares
            + (invest_decision (init_state 100000 3000) 40).1 / 100) ∧
      ((execute_investment_at (init_state 100000 3000) "d1" 40 100).operations_log
        = if 0 < (invest_decision (init_state 100000 3000) 40).1 ∧
              (invest_decision (init_state 100000 3000) 40).1 ≤ (init_state 100000 3000).cash
          then (init_state 100000 3000).operations_log
            ++ [{ date := "d1", action := "buy", pe := some 40 }]
          else (init_state 100000 3000).operations_log) ∧
      ((init_state 100000 3000).cash < (invest_decision (init_state 100000 3000) 40).1 →
        (execute_investment_at (init_state 100000 3000) "d1" 40 100).cash
          = (init_state 100000 3000).cash)) ∧
    ((∃ e : ℚ, 0 ≤ e ∧ e ≤ probe_state.reserve * (1/2) ∧
        ((invest_decision probe_state 40).1 - e = 0 ∨
         (invest_decision probe_state 40).1 - e = probe_state.base_invest ∨
         (invest_decision probe_state 40).1 - e = 2 * probe_state.base_invest)) ∧
      ((invest_decision probe_state 40).1 ≤ probe_state.cash →
        (execute_investment_at probe_state "d2" 40 100).cash
          = probe_state.cash - (invest_decision probe_state 40).1 ∧
        (execute_investment_at probe_state "d2" 40 100).stock_shares
          = probe_state.stock_shares + (invest_decision probe_state 40).1 / 100) ∧
      ((execute_investment_at probe_state "d2" 40 100).operations_log
        = if 0 < (invest_decision probe_state 40).1 ∧
              (invest_decision probe_state 40).1 ≤ probe_state.cash
          then probe_state.operations_log
            ++ [{ date := "d2", action := "buy", pe := some 40 }]
          else probe_state.operations_log) ∧
      (probe_state.cash < (invest_decision probe_state 40).1 →
        (execute_investment_at probe_state "d2" 40 100).cash = probe_state.cash)) :=
  ⟨by norm_num [init_state], by norm_num [init_state],
    by norm_num [invest_decision, band_streak, band_amount, init_state],
    by norm_num [invest_decision, band_streak, band_amount, init_state],
    by norm_num [probe_state],
    by norm_num [probe_state],
    by norm_num [invest_decision, band_streak, band_amount, probe_state],
    contribution_decision_execution_props (init_state 100000 3000) "d1" 40 100
      (by norm_num [init_state]) (by norm_num [init_state]),
    contribution_decision_execution_props probe_state "d2" 40 100
      (by norm_num [probe_state]) (by norm_num [probe_state])⟩

/-- Claim C9 witness: rebalancing the 10-share portfolio at positive
prices 100 and 50 leaves cash at exactly 0, and the zero-cash purchase
block is instantiated by the theorem itself. -/
theorem rebalance_deploys_all_cash_witness :
    (0:ℚ) < 100 ∧ (0:ℚ) < 50 ∧
    ((rebalance_portfolio probe_state 42 100 50).1.cash = 0 ∧
      (∀ s2 : PState, ∀ d : String, ∀ pe cp : ℚ, s2.cash = 0 →
        (execute_investment_at s2 d pe cp).stock_shares = s2.stock_shares ∧
        (execute_investment_at s2 d pe cp).cash = 0)) :=
  ⟨by norm_num, by norm_num,
    rebalance_deploys_all_cash probe_state 42 100 50 (by norm_num) (by norm_num)⟩
